import Mathlib

/-!
Verification of `clickhouse_backend/driver/connection.py`.

Strings are modelled as `List Char`.  The module-level pattern
`update_pattern = re.compile(f"^ALTER TABLE ({name_regex}) UPDATE ")` with
`name_regex = r'"(?:[^\"]|\\.)+"'` is modelled by a backtracking matcher with
Python `re` semantics (leftmost match, alternatives in order, greedy `+`).
-/

namespace CHBackend

/-- The literal prefix `ALTER TABLE ` of `update_pattern`. -/
def alterTablePrefix : List Char := "ALTER TABLE ".toList

/-- The literal ` UPDATE ` that must follow the quoted name in `update_pattern`. -/
def updateToken : List Char := " UPDATE ".toList

/-- Backtracking matcher for the tail of `"(?:[^"]|\\.)+"` followed by ` UPDATE `,
after at least one repetition has been consumed.  `acc` holds the reversed group
content so far.  Python `re` tries `[^"]` first, then `\\.`, and only when no
further repetition extends to a full match does it close the group (greedy `+`).
Returns the group content (without the surrounding quotes).  `fuel` bounds the
recursion; each repetition consumes at least one character of `rest`. -/
def nameTail (fuel : Nat) (acc rest : List Char) : Option (List Char) :=
  match fuel with
  | 0 => none
  | fuel + 1 =>
    (match rest with
     | c :: r => if c = '"' then none else nameTail fuel (c :: acc) r
     | [] => none).orElse fun _ =>
    (match rest with
     | '\\' :: d :: r =>
       if d = '\n' then none else nameTail fuel (d :: '\\' :: acc) r
     | _ => none).orElse fun _ =>
    (match rest with
     | '"' :: r => if updateToken.isPrefixOf r then some acc.reverse else none
     | _ => none)

/-- Matcher for `("(?:[^"]|\\.)+") UPDATE ` (the part of `update_pattern` after
the `ALTER TABLE ` literal): an opening quote, one-or-more repetitions, a
closing quote, then ` UPDATE `.  Returns the group content between the quotes. -/
def matchName (cs : List Char) : Option (List Char) :=
  match cs with
  | '"' :: rest =>
    (match rest with
     | c :: r => if c = '"' then none else nameTail (r.length + 1) [c] r
     | [] => none).orElse fun _ =>
    (match rest with
     | '\\' :: d :: r =>
       if d = '\n' then none else nameTail (r.length + 1) ['\\', d].reverse r
     | _ => none)
  | _ => none

/-- `update_pattern.match(s)`: anchored match of
`^ALTER TABLE ("(?:[^"]|\\.)+") UPDATE `; returns `m.group(1)`, which includes
the surrounding double quotes. -/
def matchUpdate (cs : List Char) : Option (List Char) :=
  if alterTablePrefix.isPrefixOf cs then
    match matchName (cs.drop 12) with
    | some content => some ('"' :: (content ++ ['"']))
    | none => none
  else none

/-- The needle ` WHERE ` searched by `query_upper.rfind(" WHERE ")`. -/
def whereToken : List Char := " WHERE ".toList

/-- The needle ` SETTINGS ` searched by `query_upper.rfind(" SETTINGS ", i + 7)`. -/
def settingsToken : List Char := " SETTINGS ".toList

/-- `needle` occurs in `hay` at index `k`. -/
def occursAt (hay needle : List Char) (k : Nat) : Prop :=
  needle.isPrefixOf (hay.drop k) = true

instance (hay needle : List Char) (k : Nat) : Decidable (occursAt hay needle k) := by
  unfold occursAt; infer_instance

/-- Helper for Python `str.rfind(sub, start)`: scan candidate indices from `n`
down to `0`, returning the first (hence largest) index `i` with `start ≤ i` at
which `needle` occurs. -/
def rfindFromAux (hay needle : List Char) (start : Nat) : Nat → Option Nat
  | 0 => if start = 0 ∧ occursAt hay needle 0 then some 0 else none
  | n + 1 =>
    if start ≤ n + 1 ∧ occursAt hay needle (n + 1) then some (n + 1)
    else rfindFromAux hay needle start n

/-- Python `hay.rfind(needle, start)`: the largest index `i ≥ start` at which
`needle` occurs, as `some i`; `none` plays the role of Python's `-1`. -/
def rfindFrom (hay needle : List Char) (start : Nat) : Option Nat :=
  rfindFromAux hay needle start hay.length

/-- `query.upper()` (ASCII model). -/
def upperL (cs : List Char) : List Char := cs.map Char.toUpper

/-- The `WHERE`-predicate extraction of `Cursor.execute` (connection.py lines
159-166): `i = query_upper.rfind(" WHERE ")`; when `i > 0`,
`j = query_upper.rfind(" SETTINGS ", i + 7)`; when `j > 0` the predicate is
`query[i + 7 : j]`, else `query[i + 7 :]`.  Returns `none` when the `i > 0`
guard fails, i.e. when no row-count emulation happens. -/
def extractPred (query : List Char) : Option (List Char) :=
  let qU := upperL query
  match rfindFrom qU whereToken 0 with
  | some i =>
    if 0 < i then
      match rfindFrom qU settingsToken (i + 7) with
      | some j =>
        if 0 < j then some ((query.drop (i + 7)).take (j - (i + 7)))
        else some (query.drop (i + 7))
      | none => some (query.drop (i + 7))
    else none
  | none => none

/-! ## `Cursor.execute` (connection.py lines 149-171)

Observable side effects are recorded as an ordered trace.  External
collaborators (`self._client.substitute_params` and the probe's `fetchone`
result) are oracles supplied in an environment; the Django setting
`CLICKHOUSE_ENABLE_UPDATE_ROWCOUNT` is the `flag` field.  `none` models an
uncaught exception (`m.group(1)` with `m = None` raises `AttributeError`). -/

/-- One observable side effect of `Cursor.execute`: a statement executed via
`super().execute(stmt, params)`, or the assignment `self._rowcount = rowcount`. -/
inductive Eff (α : Type) where
  | exec (stmt : List Char) (params : Option α)
  | setRowcount (n : Int)
  deriving DecidableEq

/-- Environment of `Cursor.execute`: the Django flag
`CLICKHOUSE_ENABLE_UPDATE_ROWCOUNT`, the external
`self._client.substitute_params` collaborator, and the single value returned
by `self.fetchone()` after the probe query. -/
structure ExecEnv (α : Type) where
  flag : Bool
  subst : List Char → Option α → List Char
  count : List Char → Int

/-- The probe text `f"select count(*) from {table} where {where}"`. -/
def probeQuery (table wh : List Char) : List Char :=
  "select count(*) from ".toList ++ table ++ " where ".toList ++ wh

/-- `Cursor.execute(operation, parameters)`: when the emulation flag is on and
`update_pattern` matches `operation`, parameters are substituted, the pattern
is re-matched on the substituted `query` (`m.group(1)` raises when that match
fails: result `none`), the predicate is extracted, and when present the probe
is executed first, `self._rowcount` is set to its fetched value, and the
original statement is executed afterward.  In every other branch only the
original statement is executed. -/
def Cursor.execute {α : Type} (env : ExecEnv α) (operation : List Char)
    (parameters : Option α) : Option (List (Eff α)) :=
  if env.flag && (matchUpdate operation).isSome then
    let query := env.subst operation parameters
    match matchUpdate query with
    | none => none
    | some table =>
      match extractPred query with
      | some wh =>
        some [Eff.exec (probeQuery table wh) none,
              Eff.setRowcount (env.count (probeQuery table wh)),
              Eff.exec operation parameters]
      | none => some [Eff.exec operation parameters]
  else some [Eff.exec operation parameters]

/-! ## `Cursor.close` / `Cursor.__del__` (lines 80-89, 133-137)

The base class `clickhouse_driver.dbapi.cursor.Cursor` keeps `_state` among
`NONE`, `RUNNING`, `FINISHED`, `CURSOR_CLOSED`; `closed` is
`_state == CURSOR_CLOSED`.  `pushCount` counts the calls
`self._connection.pool.push(self._client)` made with this cursor's client. -/

inductive CursorSt where
  | stNone
  | stRunning
  | stFinished
  | stClosed
  deriving DecidableEq

/-- Cursor lifecycle state: the `_state` field and the number of times the
bound client has been pushed back to the pool. -/
structure LifeState where
  state : CursorSt
  pushCount : Nat
  deriving DecidableEq

/-- `Cursor.close`: `if self.closed: return`; otherwise set
`_state = CURSOR_CLOSED` and `pool.push(self._client)`. -/
def Cursor.close (c : LifeState) : LifeState :=
  if c.state = CursorSt.stClosed then c
  else { state := CursorSt.stClosed, pushCount := c.pushCount + 1 }

/-- `Cursor.__del__`: `if not self.closed: self.close()`. -/
def Cursor.del (c : LifeState) : LifeState :=
  if c.state = CursorSt.stClosed then c else Cursor.close c

/-- An event in an interleaving of explicit and implicit closes. -/
inductive LifeOp where
  | close
  | del
  deriving DecidableEq

def applyOp (c : LifeState) (op : LifeOp) : LifeState :=
  match op with
  | LifeOp.close => Cursor.close c
  | LifeOp.del => Cursor.del c

def applyOps (c : LifeState) (ops : List LifeOp) : LifeState :=
  ops.foldl applyOp c

/-! ## Execution options: `use_numpy` setter (lines 91-114) and
`set_query_execution_args` (lines 116-131)

The three result classes (`query_result_cls`, `iter_query_result_cls`,
`progress_query_result_cls`) are always assigned together, to either the
plain or the numpy triple, so they are modelled as one field.  A `Bool`
result of `false` models a raised exception, with the state as the raising
code left it (Python state is not rolled back by an exception). -/

inductive ResCls where
  | defaultCls
  | numpyCls
  deriving DecidableEq

/-- Cursor/client execution-option state: `client_settings["use_numpy"]`, the
result-class triple, and the `columnar` attribute. -/
structure ExecOpts where
  useNumpy : Bool
  resultCls : ResCls
  columnar : Option Bool
  deriving DecidableEq

/-- The `use_numpy` property setter: first
`self._client.client_settings["use_numpy"] = value`; then, for `value` true,
the numpy result classes are imported — `ImportError` (modelled by
`avail = false`) raises `RuntimeError` after that first assignment — and on
success assign the numpy triple; for `value` false assign the plain triple. -/
def setUseNumpy (avail : Bool) (value : Bool) (s : ExecOpts) : ExecOpts × Bool :=
  let s1 := { s with useNumpy := value }
  if value then
    if avail then ({ s1 with resultCls := ResCls.numpyCls }, true)
    else (s1, false)
  else ({ s1 with resultCls := ResCls.defaultCls }, true)

/-- `set_query_execution_args(columnar, use_numpy)` as a `@contextmanager`
generator applied to a block: capture `original_use_numpy`, optionally assign
`self.use_numpy` (the setter above), capture `original_columnar`, optionally
assign `self.columnar`, run the block, and after a NORMAL return restore
`self.use_numpy = original_use_numpy` and `self.columnar = original_columnar`.
The `yield` is not wrapped in `try/finally`, so when the block raises the
exception propagates out of the generator and the two restore assignments
never run. -/
def setQueryExecutionArgs (avail : Bool) (columnarArg useNumpyArg : Option Bool)
    (block : ExecOpts → ExecOpts × Bool) (s : ExecOpts) : ExecOpts × Bool :=
  let origNumpy := s.useNumpy
  let afterNumpy : ExecOpts × Bool :=
    match useNumpyArg with
    | some v => setUseNumpy avail v s
    | none => (s, true)
  match afterNumpy with
  | (s1, false) => (s1, false)
  | (s1, true) =>
    let origColumnar := s1.columnar
    let s2 :=
      match columnarArg with
      | some c => { s1 with columnar := some c }
      | none => s1
    match block s2 with
    | (s3, false) => (s3, false)
    | (s3, true) =>
      match setUseNumpy avail origNumpy s3 with
      | (s4, false) => (s4, false)
      | (s4, true) => ({ s4 with columnar := origColumnar }, true)

/-! ## `Connection.cursor` (lines 201-213)

The pool (`clickhouse_backend.driver.pool.ClickhousePool`) is an external
collaborator here; `pull` is an oracle.  `hostsOf` models reading
`client.connection.hosts` from a freshly pulled client. -/

/-- Error taxonomy surfaced by `Connection.cursor`. -/
inductive DbErr where
  | interfaceError
  deriving DecidableEq

/-- Connection state: `is_closed`, the pool state (abstract), and the cached
`_hosts` list. -/
structure ConnState (π : Type) where
  isClosed : Bool
  pool : π
  hosts : Option (List (List Char))

/-- A created cursor object: the client handle it is bound to. -/
structure CursorObj where
  client : Nat
  deriving DecidableEq

/-- `Connection.cursor(cursor_factory)`: `if self.is_closed: raise
errors.InterfaceError("connection already closed")`; otherwise pull a client
via `_make_client` (i.e. `pool.pull()`), cache or install `_hosts`, and return
the cursor bound to the client. -/
def Connection.cursor {π : Type} (pull : π → Nat × π)
    (hostsOf : Nat → List (List Char)) (conn : ConnState π) :
    Except DbErr (ConnState π × CursorObj) :=
  if conn.isClosed then Except.error DbErr.interfaceError
  else
    let (client, pool1) := pull conn.pool
    match conn.hosts with
    | none =>
      Except.ok ({ conn with pool := pool1, hosts := some (hostsOf client) },
        { client := client })
    | some _ => Except.ok ({ conn with pool := pool1 }, { client := client })

/-! ## Patched `send_query` (lines 20-72)

The monkey-patched `Connection.send_query` of `clickhouse_driver` is in src;
its writes to `self.fout` are modelled as an ordered event list.  Protocol
constants are the `clickhouse_driver.defines` values consumed by the code. -/

def DBMS_MIN_REVISION_WITH_CLIENT_INFO : Nat := 54032
def DBMS_MIN_REVISION_WITH_SETTINGS_SERIALIZED_AS_STRINGS : Nat := 54429
def DBMS_MIN_REVISION_WITH_INTERSERVER_SECRET : Nat := 54441
def DBMS_MIN_PROTOCOL_VERSION_WITH_PARAMETERS : Nat := 54459

/-- `ClientPacketTypes.QUERY`. -/
def clientPacketQuery : Nat := 1

/-- `QueryProcessingStage.COMPLETE`. -/
def queryProcessingComplete : Nat := 2

/-- `SettingsFlags.IMPORTANT` and `SettingsFlags.CUSTOM`. -/
def settingsFlagImportant : Nat := 1
def settingsFlagCustom : Nat := 2

/-- One write to `self.fout`, tagged by the call site in `send_query`.
`α` is the type of the escaped client-parameter mapping passed to the
`write_settings` call for query parameters. -/
inductive WireEvent (α : Type) where
  | packetType (n : Nat)
  | queryIdStr (s : List Char)
  | clientInfoBlock (rev : Nat)
  | mainSettings (asStrings : Bool) (flags : Nat)
  | interserverSecret
  | stage (n : Nat)
  | compression (n : Nat)
  | queryText (q : List Char)
  | paramSettings (payload : α) (asStrings : Bool) (flags : Nat)
  deriving DecidableEq

/-- Whether an event is the client-parameter settings block (the
`write_settings(escaped, self.fout, True, SettingsFlags.CUSTOM)` call). -/
def WireEvent.isParamSettings {α : Type} : WireEvent α → Bool
  | WireEvent.paramSettings _ _ _ => true
  | _ => false

/-- Environment of `send_query`: the server's `used_revision`, the
`settings_is_important` flag, the `server_side_params` client setting, the
compression mode, the external `escape_params` collaborator and the empty
mapping used when `server_side_params` is off. -/
structure SendEnv (α β : Type) where
  revision : Nat
  settingsIsImportant : Bool
  serverSideParams : Bool
  compressionMode : Nat
  escape : Option β → α
  emptyMapping : α

/-- The patched `send_query(self, query, query_id, params)` as the ordered
list of writes it performs on `self.fout` (the initial `connect()` when not
connected, the debug log and the final `flush()` produce no writes). -/
def send_query {α β : Type} (env : SendEnv α β) (query : List Char)
    (queryId : Option (List Char)) (params : Option β) : List (WireEvent α) :=
  [WireEvent.packetType clientPacketQuery, WireEvent.queryIdStr (queryId.getD [])]
  ++ (if DBMS_MIN_REVISION_WITH_CLIENT_INFO ≤ env.revision then
        [WireEvent.clientInfoBlock env.revision]
      else [])
  ++ [WireEvent.mainSettings
        (decide (DBMS_MIN_REVISION_WITH_SETTINGS_SERIALIZED_AS_STRINGS ≤ env.revision))
        (if env.settingsIsImportant then settingsFlagImportant else 0)]
  ++ (if DBMS_MIN_REVISION_WITH_INTERSERVER_SECRET ≤ env.revision then
        [WireEvent.interserverSecret]
      else [])
  ++ [WireEvent.stage queryProcessingComplete,
      WireEvent.compression env.compressionMode,
      WireEvent.queryText query]
  ++ (if DBMS_MIN_PROTOCOL_VERSION_WITH_PARAMETERS ≤ env.revision then
        [WireEvent.paramSettings
          (if env.serverSideParams then env.escape params else env.emptyMapping)
          true settingsFlagCustom]
      else [])

/-! ## Concrete inputs used by witnesses and counterexamples -/

/-- The statement of the `WHERE`-in-`SETTINGS` scenario. -/
def c3Stmt : List Char :=
  "ALTER TABLE \"t\" UPDATE x = 1 WHERE id > 5 SETTINGS max_threads = 2".toList

/-- The statement of the row-count emulation scenario. -/
def c1Stmt : List Char := "ALTER TABLE \"t\" UPDATE x = 1 WHERE id > 5".toList

/-- An environment with the flag enabled, identity substitution (the statement
has no placeholders) and a probe result of 7. -/
def c1Env : ExecEnv Unit :=
  { flag := true, subst := fun q _ => q, count := fun _ => 7 }

/-- The statement of the row-count emulation skip scenario. -/
def c4Stmt : List Char := "ALTER TABLE \"t\" UPDATE x = 1".toList

/-- An environment whose substitution collaborator destroys the update shape
(e.g. a parameter value containing a double quote substituted inside the
quoted table name): the re-match on the substituted query fails. -/
def c10BadEnv : ExecEnv Unit :=
  { flag := true, subst := fun _ _ => "x".toList, count := fun _ => 0 }

/-- A freshly created open cursor bound to a pulled client. -/
def openCursor : LifeState := { state := CursorSt.stNone, pushCount := 0 }

/-- The invariant tying the cursor lifecycle state to the number of pushes:
before closing nothing has been pushed, and closing pushes at most once. -/
def lifeInv (c : LifeState) : Prop :=
  (c.state = CursorSt.stClosed ∧ c.pushCount ≤ 1)
  ∨ (c.state ≠ CursorSt.stClosed ∧ c.pushCount = 0)

/-- Initial execution-option state: numpy off, plain result classes, default
`columnar = None`. -/
def defaultOpts : ExecOpts :=
  { useNumpy := false, resultCls := ResCls.defaultCls, columnar := none }

/-- A wrapped block that raises immediately. -/
def raisingBlock : ExecOpts → ExecOpts × Bool := fun s => (s, false)

/-- A wrapped block that completes normally after changing every option. -/
def mutatingBlock : ExecOpts → ExecOpts × Bool := fun _ =>
  ({ useNumpy := true, resultCls := ResCls.numpyCls, columnar := some false }, true)

/-- A pool oracle for the witness: pull returns the counter as a fresh
handle. -/
def counterPull : Nat → Nat × Nat := fun p => (p, p + 1)

/-- A hosts oracle for the witness. -/
def noHosts : Nat → List (List Char) := fun _ => []

/-- A concrete environment whose revision passes the parameters check. -/
def sendEnvNew : SendEnv Unit Unit :=
  { revision := 54459, settingsIsImportant := false, serverSideParams := true,
    compressionMode := 0, escape := fun _ => (), emptyMapping := () }

/-- A concrete environment whose revision fails the parameters check. -/
def sendEnvOld : SendEnv Unit Unit :=
  { revision := 54458, settingsIsImportant := false, serverSideParams := true,
    compressionMode := 0, escape := fun _ => (), emptyMapping := () }

/-- The query text used by the C8 witness. -/
def c8Query : List Char := "SELECT 1".toList

/-! ## Lemmas about `rfindFrom` -/

theorem occursAt_le_length {hay nd : List Char} {k : Nat}
    (h : occursAt hay nd k) (hnd : 0 < nd.length) : k ≤ hay.length := by
  by_contra hgt
  push_neg at hgt
  have hdrop : hay.drop k = [] := List.drop_eq_nil_of_le (Nat.le_of_lt hgt)
  unfold occursAt at h
  rw [hdrop] at h
  have := List.IsPrefix.length_le (List.isPrefixOf_iff_prefix.mp h)
  simp only [List.length_nil, Nat.le_zero] at this
  omega

theorem rfindFromAux_eq_some (hay nd : List Char) (start k : Nat) :
    ∀ n, start ≤ k → k ≤ n → occursAt hay nd k →
      (∀ m, k < m → m ≤ n → ¬(start ≤ m ∧ occursAt hay nd m)) →
      rfindFromAux hay nd start n = some k := by
  intro n
  induction n with
  | zero =>
    intro h1 h2 h3 _
    have hk0 : k = 0 := Nat.le_zero.mp h2
    have hs0 : start = 0 := Nat.le_zero.mp (hk0 ▸ h1)
    subst hk0
    simp [rfindFromAux, hs0, h3]
  | succ n ih =>
    intro h1 h2 h3 hmax
    by_cases hk : k = n + 1
    · subst hk
      simp [rfindFromAux, h1, h3]
    · have hkn : k ≤ n := by omega
      have hnot : ¬(start ≤ n + 1 ∧ occursAt hay nd (n + 1)) :=
        hmax (n + 1) (by omega) (Nat.le_refl _)
      simp only [rfindFromAux]
      rw [if_neg hnot]
      exact ih h1 hkn h3 (fun m hm1 hm2 => hmax m hm1 (by omega))

theorem rfindFromAux_eq_none (hay nd : List Char) (start : Nat) :
    ∀ n, (∀ m, m ≤ n → ¬(start ≤ m ∧ occursAt hay nd m)) →
      rfindFromAux hay nd start n = none := by
  intro n
  induction n with
  | zero =>
    intro h
    have := h 0 (Nat.le_refl _)
    simp only [rfindFromAux]
    rw [if_neg]
    intro ⟨ha, hb⟩
    exact this ⟨ha ▸ Nat.le_refl 0, hb⟩
  | succ n ih =>
    intro h
    simp only [rfindFromAux]
    rw [if_neg (h (n + 1) (Nat.le_refl _))]
    exact ih (fun m hm => h m (by omega))

theorem rfindFrom_eq_some {hay nd : List Char} {start k : Nat}
    (h1 : start ≤ k) (hocc : occursAt hay nd k) (hnd : 0 < nd.length)
    (hmax : ∀ m, k < m → ¬(start ≤ m ∧ occursAt hay nd m)) :
    rfindFrom hay nd start = some k :=
  rfindFromAux_eq_some hay nd start k hay.length h1
    (occursAt_le_length hocc hnd) hocc (fun m hm1 _ => hmax m hm1)

theorem rfindFrom_eq_none {hay nd : List Char} {start : Nat}
    (h : ∀ m, start ≤ m → ¬occursAt hay nd m) :
    rfindFrom hay nd start = none :=
  rfindFromAux_eq_none hay nd start hay.length
    (fun m _ ⟨ha, hb⟩ => h m ha hb)

/-- C3 — During row-count emulation, the table name and WHERE predicate are
extracted by case-insensitive search from the right: the predicate is the text
between the last occurrence of ` WHERE ` and the last occurrence of
` SETTINGS ` after it, or to end-of-string if no SETTINGS clause follows; in
particular, for a statement ending `... WHERE id > 5 SETTINGS max_threads = 2`
the extracted predicate is exactly `id > 5`.  Case-insensitivity is the
search over `upperL query` (the code's `query.upper()`) for the upper-case
tokens. -/
theorem c3_rightmost_extraction (query : List Char) (i : Nat) (h0 : 0 < i)
    (hocc : occursAt (upperL query) whereToken i)
    (hlast : ∀ k, i < k → ¬occursAt (upperL query) whereToken k) :
    ((∀ k, i + 7 ≤ k → ¬occursAt (upperL query) settingsToken k) →
        extractPred query = some (query.drop (i + 7)))
    ∧ (∀ j, i + 7 ≤ j → occursAt (upperL query) settingsToken j →
        (∀ k, j < k → ¬occursAt (upperL query) settingsToken k) →
        extractPred query = some ((query.drop (i + 7)).take (j - (i + 7))))
    ∧ extractPred
        ( "ALTER TABLE \"t\" UPDATE x = 1 WHERE id > 5 SETTINGS max_threads = 2".toList)
        = some ( "id > 5".toList) := by
  have hW : rfindFrom (upperL query) whereToken 0 = some i :=
    rfindFrom_eq_some (Nat.zero_le _) hocc (by decide)
      (fun m hm1 ⟨_, hb⟩ => hlast m hm1 hb)
  refine ⟨?_, ?_, by decide⟩
  · intro hnos
    have hS : rfindFrom (upperL query) settingsToken (i + 7) = none :=
      rfindFrom_eq_none (fun m hm => hnos m hm)
    simp [extractPred, hW, hS, h0]
  · intro j hj hoccS hlastS
    have hS : rfindFrom (upperL query) settingsToken (i + 7) = some j :=
      rfindFrom_eq_some hj hoccS (by decide)
        (fun m hm1 ⟨_, hb⟩ => hlastS m hm1 hb)
    have hj0 : 0 < j := by omega
    simp [extractPred, hW, hS, h0, hj0]

/-- Reduce an unbounded no-occurrence-above hypothesis to a decidable bounded
one: an occurrence of a nonempty needle can only lie within the haystack. -/
theorem forall_gt_not_occursAt (hay nd : List Char) (c : Nat) (hnd : 0 < nd.length)
    (h : ∀ k, k < hay.length + 1 → c < k → ¬occursAt hay nd k) :
    ∀ k, c < k → ¬occursAt hay nd k := by
  intro k hk hocc
  exact h k (by have := occursAt_le_length hocc hnd; omega) hk hocc


/-- Witness for C3 at the scenario statement: the last ` WHERE ` is at index
28, the last ` SETTINGS ` after it at index 41, and the extracted predicate is
`id > 5`. -/
theorem c3_rightmost_extraction_witness :
    extractPred c3Stmt = some ( "id > 5".toList) :=
  (c3_rightmost_extraction c3Stmt 28 (by decide) (by decide)
      (forall_gt_not_occursAt (upperL c3Stmt) whereToken 28 (by decide)
        (by decide))).2.1 41 (by decide) (by decide)
    (forall_gt_not_occursAt (upperL c3Stmt) settingsToken 41 (by decide)
      (by decide))

/-- C1 — With the row-count emulation flag enabled, for a statement matching
`ALTER TABLE <quoted-name> UPDATE ` whose substituted form still matches and
contains a `WHERE` clause, `Cursor.execute` first executes the probe
`select count(*) from <table> where <predicate>` on the same cursor, sets the
reported rowcount to the probe's single fetched value, and then still executes
the original mutation statement afterward. -/
theorem c1_probe_then_original {α : Type} (env : ExecEnv α) (op : List Char)
    (ps : Option α) (table wh : List Char)
    (hflag : env.flag = true)
    (hop : (matchUpdate op).isSome = true)
    (hq : matchUpdate (env.subst op ps) = some table)
    (hw : extractPred (env.subst op ps) = some wh) :
    Cursor.execute env op ps =
      some [Eff.exec (probeQuery table wh) none,
            Eff.setRowcount (env.count (probeQuery table wh)),
            Eff.exec op ps] := by
  simp [Cursor.execute, hflag, hop, hq, hw]



/-- Witness for C1 at the scenario: the probe
`select count(*) from "t" where id > 5` runs first, the rowcount becomes 7,
and the original statement still runs afterward. -/
theorem c1_probe_then_original_witness :
    Cursor.execute c1Env c1Stmt none =
      some [Eff.exec ( "select count(*) from \"t\" where id > 5".toList) none,
            Eff.setRowcount 7,
            Eff.exec c1Stmt none] :=
  c1_probe_then_original c1Env c1Stmt none ( "\"t\"".toList) ( "id > 5".toList)
    rfl (by decide) (by decide) (by decide)

/-- C4 — For a statement matching the `ALTER TABLE <quoted-name> UPDATE `
shape with no `WHERE` clause after parameter substitution, `Cursor.execute`
issues no probe query and sets no emulated rowcount: only the original
statement is executed (whatever the flag's value). -/
theorem c4_no_where_skips_emulation {α : Type} (env : ExecEnv α)
    (op : List Char) (ps : Option α) (table : List Char)
    (hop : (matchUpdate op).isSome = true)
    (hq : matchUpdate (env.subst op ps) = some table)
    (hnw : extractPred (env.subst op ps) = none) :
    Cursor.execute env op ps = some [Eff.exec op ps] := by
  by_cases hf : env.flag <;> simp [Cursor.execute, hf, hop, hq, hnw]


/-- Witness for C4 at the scenario statement (flag enabled): no probe, no
rowcount assignment, just the original execution. -/
theorem c4_no_where_skips_emulation_witness :
    Cursor.execute c1Env c4Stmt none = some [Eff.exec c4Stmt none] :=
  c4_no_where_skips_emulation c1Env c4Stmt none ( "\"t\"".toList)
    (by decide) (by decide) (by decide)

/-- A statement matching `update_pattern` starts with `A`, so it is never
equal to a probe query, which starts with `s`. -/
theorem probe_ne_matched (t wh op : List Char)
    (h : (matchUpdate op).isSome = true) : probeQuery t wh ≠ op := by
  intro he
  unfold matchUpdate at h
  by_cases hp : alterTablePrefix.isPrefixOf op
  · rcases List.isPrefixOf_iff_prefix.mp hp with ⟨r, hr⟩
    rw [← hr] at he
    have h1 : (probeQuery t wh).headD 'x' = 's' := rfl
    have h2 : ((alterTablePrefix ++ r).headD 'x') = 'A' := rfl
    rw [he] at h1
    exact absurd (h1.symm.trans h2) (by decide)
  · simp [hp] at h

/-- C10 (amended) — Provided that whenever emulation is attempted (flag
enabled and the operation matches the update shape) the parameter-substituted
statement still matches the shape, `Cursor.execute` executes the original
statement exactly once, with the original unsubstituted text and parameters,
as the final execution, in every branch; the probe, when issued, is a
separate additional prior execution. -/
theorem c10_original_executed_once {α : Type} (env : ExecEnv α)
    (op : List Char) (ps : Option α)
    (hsafe : env.flag = true → (matchUpdate op).isSome = true →
      (matchUpdate (env.subst op ps)).isSome = true) :
    ∃ effs, Cursor.execute env op ps = some effs ∧
      ∃ pre, effs = pre ++ [Eff.exec op ps] ∧ Eff.exec op ps ∉ pre := by
  by_cases hf : env.flag = true
  · by_cases hm : (matchUpdate op).isSome = true
    · rcases Option.isSome_iff_exists.mp (hsafe hf hm) with ⟨table, hq⟩
      cases hext : extractPred (env.subst op ps) with
      | none =>
        refine ⟨[Eff.exec op ps], ?_, [], by simp, by simp⟩
        simp [Cursor.execute, hf, hm, hq, hext]
      | some wh =>
        refine ⟨[Eff.exec (probeQuery table wh) none,
                 Eff.setRowcount (env.count (probeQuery table wh)),
                 Eff.exec op ps], ?_, [Eff.exec (probeQuery table wh) none,
                 Eff.setRowcount (env.count (probeQuery table wh))], by simp, ?_⟩
        · simp [Cursor.execute, hf, hm, hq, hext]
        · intro hmem
          simp only [List.mem_cons, List.mem_singleton] at hmem
          rcases hmem with h1 | h1 | h1
          · exact probe_ne_matched table wh op hm (Eff.exec.inj h1.symm).1
          · exact Eff.noConfusion h1
          · exact List.not_mem_nil _ h1
    · refine ⟨[Eff.exec op ps], ?_, [], by simp, by simp⟩
      simp [Cursor.execute, hm]
  · refine ⟨[Eff.exec op ps], ?_, [], by simp, by simp⟩
    simp [Cursor.execute, hf]

/-- Witness for C10 (amended) on the row-count emulation scenario input. -/
theorem c10_original_executed_once_witness :
    ∃ effs, Cursor.execute c1Env c1Stmt none = some effs ∧
      ∃ pre, effs = pre ++ [Eff.exec c1Stmt none] ∧ Eff.exec c1Stmt none ∉ pre :=
  c10_original_executed_once c1Env c1Stmt none (fun _ _ => by decide)


/-- C10 counterexample — the claim as stated is false: with the emulation flag
enabled and an operation matching the update shape, when parameter
substitution yields a query that no longer matches `update_pattern`,
`m.group(1)` is evaluated with `m = None`, so `Cursor.execute` raises
(`AttributeError`, result `none`) and the original statement is never
executed, rather than being executed exactly once. -/
theorem c10_counterexample :
    Cursor.execute c10BadEnv c1Stmt none = none := by decide

/-- C2 — `Cursor.close()` is idempotent: the first call on an open cursor
transitions it to `CURSOR_CLOSED` and pushes the bound client back to the
pool; a call on an already closed cursor is a no-op; across any number of
repeated `close()` calls the client is pushed exactly once. -/
theorem c2_close_idempotent (c : LifeState) (h : c.state ≠ CursorSt.stClosed) :
    (Cursor.close c).state = CursorSt.stClosed
    ∧ (Cursor.close c).pushCount = c.pushCount + 1
    ∧ (∀ d : LifeState, d.state = CursorSt.stClosed → Cursor.close d = d)
    ∧ ∀ n : Nat, (Cursor.close^[n + 1] c).pushCount = c.pushCount + 1 := by
  have hcl : (Cursor.close c).state = CursorSt.stClosed := by
    simp [Cursor.close, h]
  have hfix : ∀ d : LifeState, d.state = CursorSt.stClosed → Cursor.close d = d :=
    fun d hd => by simp [Cursor.close, hd]
  have hiter : ∀ n : Nat, Cursor.close^[n + 1] c = Cursor.close c := by
    intro n
    induction n with
    | zero => simp
    | succ n ih => rw [Function.iterate_succ_apply', ih, hfix _ hcl]
  refine ⟨hcl, by simp [Cursor.close, h], hfix, fun n => ?_⟩
  rw [hiter n]
  simp [Cursor.close, h]


/-- Witness for C2 at a fresh open cursor. -/
theorem c2_close_idempotent_witness :
    (Cursor.close openCursor).state = CursorSt.stClosed
    ∧ (Cursor.close openCursor).pushCount = openCursor.pushCount + 1
    ∧ (∀ d : LifeState, d.state = CursorSt.stClosed → Cursor.close d = d)
    ∧ ∀ n : Nat, (Cursor.close^[n + 1] openCursor).pushCount
        = openCursor.pushCount + 1 :=
  c2_close_idempotent openCursor (by decide)


theorem applyOp_lifeInv (c : LifeState) (op : LifeOp) (h : lifeInv c) :
    lifeInv (applyOp c op) := by
  rcases h with ⟨h1, h2⟩ | ⟨h1, h2⟩ <;> cases op <;>
    simp [applyOp, Cursor.close, Cursor.del, lifeInv, h1, h2]

theorem applyOps_lifeInv (ops : List LifeOp) :
    ∀ c : LifeState, lifeInv c → lifeInv (applyOps c ops) := by
  induction ops with
  | nil => intro c h; exact h
  | cons op rest ih =>
    intro c h
    exact ih (applyOp c op) (applyOp_lifeInv c op h)

/-- C9 — Across any interleaving of explicit `Cursor.close()` calls and the
implicit close run by `__del__`, the bound client is pushed back to the pool
at most once: `close()` marks the cursor `CURSOR_CLOSED` before pushing, and
both `close()` and `__del__` are no-ops once the state is closed. -/
theorem c9_push_at_most_once (ops : List LifeOp) :
    (applyOps openCursor ops).pushCount ≤ 1 := by
  have h := applyOps_lifeInv ops openCursor (Or.inr ⟨by decide, rfl⟩)
  rcases h with ⟨_, h2⟩ | ⟨_, h2⟩
  · exact h2
  · omega



/-- C5 counterexample — the claim as stated is false: the generator's `yield`
is not wrapped in `try/finally`, so when the code executed inside the block
raises, the restore assignments after `yield` never run.  Entering with
`columnar = None` and a temporary override `columnar = True`, an exception in
the block leaves `columnar = True` on exit instead of restoring `None`. -/
theorem c5_counterexample :
    (setQueryExecutionArgs true (some true) none raisingBlock defaultOpts).1.columnar
        = some true
    ∧ defaultOpts.columnar = none := ⟨rfl, rfl⟩

/-- C5 (amended) — `set_query_execution_args` restores the prior `use_numpy`
and `columnar` values on a normal exit of the wrapped block; when the block
raises, the temporarily overridden values are left in place (no `try/finally`
around the `yield`).  Stated here for the available-numpy environment, whose
setter never raises. -/
theorem c5_restore_on_normal_exit (columnarArg useNumpyArg : Option Bool)
    (block : ExecOpts → ExecOpts × Bool) (s : ExecOpts)
    (hblock : ∀ t, (block t).2 = true) :
    (setQueryExecutionArgs true columnarArg useNumpyArg block s).1.useNumpy
        = s.useNumpy
    ∧ (setQueryExecutionArgs true columnarArg useNumpyArg block s).1.columnar
        = s.columnar
    ∧ (setQueryExecutionArgs true columnarArg useNumpyArg block s).2 = true := by
  have hset : ∀ (v : Bool) (t : ExecOpts), setUseNumpy true v t =
      (⟨v, if v then ResCls.numpyCls else ResCls.defaultCls, t.columnar⟩, true) := by
    intro v t
    cases v <;> simp [setUseNumpy]
  have hblock2 : ∀ t : ExecOpts, ∃ u, block t = (u, true) := by
    intro t
    rcases hq : block t with ⟨u, b⟩
    have hb := hblock t
    rw [hq] at hb
    simp only at hb
    subst hb
    exact ⟨u, rfl⟩
  cases useNumpyArg with
  | none =>
    cases columnarArg with
    | none =>
      obtain ⟨u, hu⟩ := hblock2 s
      simp [setQueryExecutionArgs, hset, hu]
    | some c =>
      obtain ⟨u, hu⟩ := hblock2 ⟨s.useNumpy, s.resultCls, some c⟩
      simp [setQueryExecutionArgs, hset, hu]
  | some v =>
    cases columnarArg with
    | none =>
      obtain ⟨u, hu⟩ :=
        hblock2 ⟨v, if v then ResCls.numpyCls else ResCls.defaultCls, s.columnar⟩
      simp [setQueryExecutionArgs, hset, hu]
    | some c =>
      obtain ⟨u, hu⟩ :=
        hblock2 ⟨v, if v then ResCls.numpyCls else ResCls.defaultCls, some c⟩
      simp [setQueryExecutionArgs, hset, hu]


/-- Witness for C5 (amended): a normal exit restores `use_numpy` and
`columnar` to their prior values. -/
theorem c5_restore_on_normal_exit_witness :
    (setQueryExecutionArgs true (some true) (some true) mutatingBlock
        defaultOpts).1.useNumpy = defaultOpts.useNumpy
    ∧ (setQueryExecutionArgs true (some true) (some true) mutatingBlock
        defaultOpts).1.columnar = defaultOpts.columnar
    ∧ (setQueryExecutionArgs true (some true) (some true) mutatingBlock
        defaultOpts).2 = true :=
  c5_restore_on_normal_exit (some true) (some true) mutatingBlock defaultOpts
    (fun _ => rfl)

/-- C6 counterexample — the claim as stated is false: enabling `use_numpy`
when the numpy support is unavailable raises (`RuntimeError`), but the state
does not stay unchanged — `client_settings["use_numpy"]` has already been
assigned before the availability check. -/
theorem c6_counterexample :
    (setUseNumpy false true defaultOpts).2 = false
    ∧ (setUseNumpy false true defaultOpts).1 ≠ defaultOpts := by decide

/-- C6 (amended) — Enabling the numpy output option when the supporting
library is unavailable raises an error and leaves the result classes and
`columnar` unchanged, but the `use_numpy` client setting is committed BEFORE
availability is validated, so that one field is mutated even though the call
raises. -/
theorem c6_partial_mutation_on_failure (s : ExecOpts) :
    setUseNumpy false true s = ({ s with useNumpy := true }, false) := by
  simp [setUseNumpy]



/-- C7 — `Connection.cursor()` on an already-closed Connection raises
`InterfaceError` immediately: the error is returned before `_make_client`
runs, so no handle is pulled from the pool and no cursor is created. -/
theorem c7_cursor_on_closed_connection {π : Type} (pull : π → Nat × π)
    (hostsOf : Nat → List (List Char)) (conn : ConnState π)
    (h : conn.isClosed = true) :
    Connection.cursor pull hostsOf conn = Except.error DbErr.interfaceError := by
  simp [Connection.cursor, h]

/-- Witness for C7 at a concrete closed connection. -/
theorem c7_cursor_on_closed_connection_witness :
    Connection.cursor counterPull noHosts
        { isClosed := true, pool := (0 : Nat), hosts := none }
      = Except.error DbErr.interfaceError :=
  c7_cursor_on_closed_connection counterPull noHosts
    { isClosed := true, pool := (0 : Nat), hosts := none } rfl

/-- Every element of a conditional singleton chunk satisfies a property its
sole candidate element satisfies. -/
theorem forall_mem_ite_singleton {γ : Type} (P : γ → Prop) {c : Prop}
    [Decidable c] (x : γ) (h : P x) :
    ∀ e ∈ (if c then [x] else ([] : List γ)), P e := by
  split
  · intro e he
    rw [List.mem_singleton.mp he]
    exact h
  · intro e he
    exact absurd he (List.not_mem_nil e)

/-- C8 — In the patched `send_query`, for every query sent, the
client-parameter settings block is written to the output stream strictly
after the query text, and it is written exactly when the server revision
check (`revision >= DBMS_MIN_PROTOCOL_VERSION_WITH_PARAMETERS`) passes:
when the check passes the stream is a prefix free of parameter-settings
writes, then the query text, then the parameter-settings block; when it
fails no parameter-settings block appears at all. -/
theorem c8_params_after_query {α β : Type} (env : SendEnv α β) (q : List Char)
    (qid : Option (List Char)) (ps : Option β) :
    ((DBMS_MIN_PROTOCOL_VERSION_WITH_PARAMETERS ≤ env.revision) →
      ∃ pre payload, send_query env q qid ps
          = pre ++ [WireEvent.queryText q,
                    WireEvent.paramSettings payload true settingsFlagCustom]
        ∧ ∀ e ∈ pre, e.isParamSettings = false)
    ∧ ((env.revision < DBMS_MIN_PROTOCOL_VERSION_WITH_PARAMETERS) →
      ∀ e ∈ send_query env q qid ps, e.isParamSettings = false) := by
  constructor
  · intro h
    refine ⟨[WireEvent.packetType clientPacketQuery,
             WireEvent.queryIdStr (qid.getD [])]
        ++ (if DBMS_MIN_REVISION_WITH_CLIENT_INFO ≤ env.revision then
              [WireEvent.clientInfoBlock env.revision] else [])
        ++ [WireEvent.mainSettings
              (decide (DBMS_MIN_REVISION_WITH_SETTINGS_SERIALIZED_AS_STRINGS
                ≤ env.revision))
              (if env.settingsIsImportant then settingsFlagImportant else 0)]
        ++ (if DBMS_MIN_REVISION_WITH_INTERSERVER_SECRET ≤ env.revision then
              [WireEvent.interserverSecret] else [])
        ++ [WireEvent.stage queryProcessingComplete,
            WireEvent.compression env.compressionMode],
      (if env.serverSideParams then env.escape ps else env.emptyMapping),
      ?_, ?_⟩
    · simp [send_query, h, List.append_assoc]
    · refine List.forall_mem_append.mpr ⟨List.forall_mem_append.mpr
        ⟨List.forall_mem_append.mpr ⟨List.forall_mem_append.mpr
          ⟨?_, ?_⟩, ?_⟩, ?_⟩, ?_⟩
      · intro e he
        fin_cases he <;> rfl
      · exact forall_mem_ite_singleton _ _ rfl
      · intro e he
        fin_cases he <;> rfl
      · exact forall_mem_ite_singleton _ _ rfl
      · intro e he
        fin_cases he <;> rfl
  · intro h
    have hn : ¬(DBMS_MIN_PROTOCOL_VERSION_WITH_PARAMETERS ≤ env.revision) := by
      omega
    unfold send_query
    rw [if_neg hn]
    refine List.forall_mem_append.mpr ⟨List.forall_mem_append.mpr
      ⟨List.forall_mem_append.mpr ⟨List.forall_mem_append.mpr
        ⟨List.forall_mem_append.mpr ⟨?_, ?_⟩, ?_⟩, ?_⟩, ?_⟩, ?_⟩
    · intro e he
      fin_cases he <;> rfl
    · exact forall_mem_ite_singleton _ _ rfl
    · intro e he
      fin_cases he <;> rfl
    · exact forall_mem_ite_singleton _ _ rfl
    · intro e he
      fin_cases he <;> rfl
    · intro e he
      exact absurd he (List.not_mem_nil e)




/-- Witness for C8: at revision 54459 the parameter-settings block follows the
query text; at revision 54458 it is absent. -/
theorem c8_params_after_query_witness :
    (∃ pre payload, send_query sendEnvNew c8Query none (none : Option Unit)
        = pre ++ [WireEvent.queryText c8Query,
                  WireEvent.paramSettings payload true settingsFlagCustom]
      ∧ ∀ e ∈ pre, e.isParamSettings = false)
    ∧ (∀ e ∈ send_query sendEnvOld c8Query none (none : Option Unit),
        e.isParamSettings = false) :=
  ⟨(c8_params_after_query sendEnvNew c8Query none none).1 (by decide),
   (c8_params_after_query sendEnvOld c8Query none none).2 (by decide)⟩

end CHBackend
